import Mathlib

/-!
Verification of the ZEngine build front end (zbuild.py).

The Python source is shallowly embedded below.  External effects are made
explicit parameters: probe outcomes (what `subprocess.run` of a
version command returned), the detected CPU count, and the state of the
build directory are inputs to the embedded functions; the functions return
the argument vectors that the source would hand to `subprocess.run`,
or an `Except` value when the source can raise.
-/

namespace ZBuild

/-- Mirror of the fields of `BuildSystem.__init__` that the modelled
operations consult: the `platform.system()` string and the build
directory rendered as a string (`str(self.build_dir)`). -/
structure BuildSystem where
  system : String
  build_dir : String
deriving DecidableEq, Repr

/-- `self.is_windows = self.system == "Windows"`. -/
def BuildSystem.is_windows (b : BuildSystem) : Bool := b.system == "Windows"

/-- `self.is_linux = self.system == "Linux"`. -/
def BuildSystem.is_linux (b : BuildSystem) : Bool := b.system == "Linux"

/-- `self.is_macos = self.system == "Darwin"`. -/
def BuildSystem.is_macos (b : BuildSystem) : Bool := b.system == "Darwin"

/-- Truthiness of a Python `Optional[str]`: `None` and the empty string
are falsy, every other string is truthy. -/
def truthyStr : Option String → Bool
  | none => false
  | some s => s != ""

/-- Truthiness of a Python `Optional[int]`: `None` and `0` are falsy. -/
def truthyInt : Option Int → Bool
  | none => false
  | some n => n != 0

/-- Python `str.lower()`, character by character. -/
def pyLower (s : String) : String := ⟨s.data.map Char.toLower⟩

/-- Python `str.strip()`: drop whitespace from both ends. -/
def pyStrip (s : String) : String :=
  ⟨((s.data.dropWhile Char.isWhitespace).reverse.dropWhile
      Char.isWhitespace).reverse⟩

/-- Helper for `pySplitWs`: accumulate the current (reversed) token while
scanning the character list. -/
def splitWsAux : List Char → List Char → List String
  | [], acc => if acc.isEmpty then [] else [⟨acc.reverse⟩]
  | c :: rest, acc =>
    if c.isWhitespace then
      if acc.isEmpty then splitWsAux rest []
      else ⟨acc.reverse⟩ :: splitWsAux rest []
    else splitWsAux rest (c :: acc)

/-- Python `str.split()` with no separator: split on runs of whitespace,
discarding empty pieces. -/
def pySplitWs (s : String) : List String := splitWsAux s.data []

/-- First line of a string: the characters before the first newline.
For any string `s`, this equals the Python expression obtained by
splitting on the newline character and taking element 0. -/
def firstLine (s : String) : String :=
  ⟨s.data.takeWhile (fun c => c != '\n')⟩

/-- `BuildSystem._check_command`.  The probe environment is the input:
`none` models `FileNotFoundError` or `subprocess.TimeoutExpired` (both
swallowed), `some (rc, out)` models a completed process with exit status
`rc` and captured standard output `out`.  On zero exit status the source
returns `result.stdout.strip().split(newline)[0]`; otherwise `None`. -/
def check_command (outcome : Option (Int × String)) : Option String :=
  match outcome with
  | none => none
  | some (rc, out) =>
    if rc == 0 then some (firstLine (pyStrip out)) else none

/-- `BuildSystem.check_requirements`.  Inputs are the platform flags, the
version line returned by each probe (`none` = probe failed), and whether
the vswhere path exists.  The source indexes `version.split()[2]` on every
found version line; a line with fewer than three whitespace tokens raises
`IndexError`, modelled as `Except.error "IndexError"`.  Returns
`Except.ok false` when the cmake probe fails, `Except.ok true` otherwise
(when no indexing raises).  The sequential blocks of the source method are
the three step functions below, composed by `check_requirements`.

First the compiler block: on Windows only the vswhere path existence is
consulted (cannot raise); on Linux and macOS a truthy clang probe result
(the guard is Python truthiness, so a `None` result and an empty version
string are both falsy and only warn) is indexed with `split()[2]`, which
can raise; elsewhere nothing happens. -/
def compiler_probe_step (is_windows is_linux is_macos : Bool)
    (vswhere_exists : Bool) (clang : Option String) : Except String Unit :=
  if is_windows then
    -- vswhere path existence only selects a message; it cannot raise
    if vswhere_exists then Except.ok () else Except.ok ()
  else if is_linux || is_macos then
    if truthyStr clang then
      match (pySplitWs (clang.getD ""))[2]? with
      | none => Except.error "IndexError"
      | some _ => Except.ok ()
    else Except.ok ()
  else Except.ok ()

/-- The trailing ccache lines of `check_requirements`: when the probe
result is truthy, print the ccache version (indexing `split()[2]`, which
can raise); a falsy result (`None` or an empty string) only prints an
informational message; then return `True`. -/
def ccache_step (ccache : Option String) : Except String Bool :=
  if truthyStr ccache then
    match (pySplitWs (ccache.getD ""))[2]? with
    | none => Except.error "IndexError"
    | some _ => Except.ok true
  else Except.ok true

/-- `BuildSystem.check_requirements`: a falsy cmake probe result (probe
failed, or the captured version string is empty — the source guard is
`if not cmake_version:`) returns `False`; otherwise the cmake version
line is indexed (can raise), then the compiler block runs, then the
ccache block, whose `True` is the method result. -/
def check_requirements (is_windows is_linux is_macos : Bool)
    (cmake : Option String) (vswhere_exists : Bool)
    (clang : Option String) (ccache : Option String) : Except String Bool :=
  if !truthyStr cmake then
    Except.ok false
  else
    match (pySplitWs (cmake.getD ""))[2]? with
    | none => Except.error "IndexError"
    | some _ =>
      match compiler_probe_step is_windows is_linux is_macos
          vswhere_exists clang with
      | Except.error e => Except.error e
      | Except.ok _ => ccache_step ccache

/-- `BuildSystem.get_preset_name`.  Raising `RuntimeError` on an
unsupported platform is modelled as `Except.error`. -/
def get_preset_name (b : BuildSystem) (config : String)
    (generator : Option String) : Except String String :=
  if b.is_windows then
    let preset := if generator == some "ninja" then "windows_ninja"
                  else "windows_visual_studio"
    Except.ok preset
  else if b.is_linux then
    let preset := if generator == some "ninja" then "linux_ninja"
                  else "linux_make"
    Except.ok (preset ++ "_" ++ config)
  else if b.is_macos then
    let preset := if generator == some "ninja" then "macos_ninja"
                  else "macos_xcode"
    Except.ok (preset ++ "_" ++ config)
  else
    Except.error ("Unsupported platform: " ++ b.system)

/-- The `config_map.get(config.lower(), default)` pattern shared by
`build` (default `"Debug"`) and `install` (default `"Release"`). -/
def config_map_get (config : String) (dflt : String) : String :=
  let c := pyLower config
  if c == "debug" then "Debug"
  else if c == "release" then "Release"
  else if c == "relwithdebinfo" then "RelWithDebInfo"
  else dflt

/-- `BuildSystem.configure`: the argument vector handed to the process
runner, or the propagated unsupported-platform error.  `extra_args = none`
models Python `None`; extending by the empty list coincides with the
source skipping a falsy list. -/
def configure (b : BuildSystem) (config : String) (generator : Option String)
    (preset : Option String) (extra_args : Option (List String)) :
    Except String (List String) :=
  if truthyStr preset then
    Except.ok (["cmake", "--preset", preset.getD ""] ++ extra_args.getD [])
  else
    match get_preset_name b config generator with
    | Except.error e => Except.error e
    | Except.ok preset_name =>
      Except.ok (["cmake", "--preset", preset_name] ++ extra_args.getD [])

/-- `BuildSystem.build`: the argument vector handed to the process runner.
`cpu_count = some n` models `multiprocessing.cpu_count()` returning `n`;
`cpu_count = none` models the bare `except` branch (detection raised, no
job flag appended). -/
def build (b : BuildSystem) (config : String) (target : Option String)
    (jobs : Option Int) (preset : Option String)
    (cpu_count : Option Nat) : List String :=
  let cmd :=
    if truthyStr preset then
      ["cmake", "--build", "--preset", preset.getD ""]
    else
      let base := ["cmake", "--build", b.build_dir]
      if b.is_windows then
        base ++ ["--config", config_map_get config "Debug"]
      else
        base
  let cmd :=
    if truthyStr target then cmd ++ ["--target", target.getD ""] else cmd
  if truthyInt jobs then
    cmd ++ ["-j", toString (jobs.getD 0)]
  else
    match cpu_count with
    | some n => cmd ++ ["-j", toString n]
    | none => cmd

/-- The leading segment of the `build` vector: the part assembled before
the target and job flags (lines building `cmd` up to the configuration
flag in the source). -/
def build_base (b : BuildSystem) (config : String) (preset : Option String) :
    List String :=
  if truthyStr preset then
    ["cmake", "--build", "--preset", preset.getD ""]
  else
    let base := ["cmake", "--build", b.build_dir]
    if b.is_windows then
      base ++ ["--config", config_map_get config "Debug"]
    else
      base

/-- The target segment of the `build` vector. -/
def target_part (target : Option String) : List String :=
  if truthyStr target then ["--target", target.getD ""] else []

/-- The job-count segment of the `build` vector. -/
def jobs_part (jobs : Option Int) (cpu_count : Option Nat) : List String :=
  if truthyInt jobs then
    ["-j", toString (jobs.getD 0)]
  else
    match cpu_count with
    | some n => ["-j", toString n]
    | none => []

/-- `BuildSystem.clean`, over a filesystem whose state is whether the
build directory exists, together with the environment's answer to the
removal attempt: `rmtree_ok = true` models `shutil.rmtree` completing,
`rmtree_ok = false` models it raising (the except branch, which reports
the error and returns `False`, the directory remaining).  Result:
(returned boolean, directory exists afterwards). -/
def clean (build_dir_exists : Bool) (rmtree_ok : Bool) : Bool × Bool :=
  if build_dir_exists then
    if rmtree_ok then (true, false)
    else (false, build_dir_exists)
  else
    (true, build_dir_exists)

/-- `BuildSystem.install`: the argument vector handed to the process
runner. -/
def install (b : BuildSystem) (config : String) : List String :=
  let cmd := ["cmake", "--install", b.build_dir]
  if b.is_windows then
    cmd ++ ["--config", config_map_get config "Release"]
  else
    cmd

/-- `BuildSystem.test`: the argument vector handed to the process
runner. -/
def run_tests (b : BuildSystem) : List String :=
  ["ctest", "--test-dir", b.build_dir, "--output-on-failure"]

/-- `BuildSystem.list_presets`: the argument vector run with captured
output. -/
def list_presets : List String :=
  ["cmake", "--list-presets"]

/-- The `build` vector is its base, target and job segments in that
order, mirroring the stepwise `cmd` extension in the source. -/
theorem build_parts (b : BuildSystem) (config : String) (target : Option String)
    (jobs : Option Int) (preset : Option String) (cpu_count : Option Nat) :
    build b config target jobs preset cpu_count =
      build_base b config preset ++ target_part target ++ jobs_part jobs cpu_count := by
  unfold build build_base target_part jobs_part
  by_cases h1 : truthyStr preset <;> by_cases h2 : truthyStr target <;>
    by_cases h3 : truthyInt jobs <;> cases cpu_count <;>
    simp [h1, h2, h3]

/-- The string "--config" never occurs in the target segment when the
target value is not itself that string. -/
theorem config_not_mem_target_part (target : Option String)
    (ht : ∀ t, target = some t → t ≠ "--config") :
    "--config" ∉ target_part target := by
  cases target with
  | none => simp [target_part, truthyStr]
  | some t =>
    have h := ht t rfl
    by_cases he : t = "" <;> simp [target_part, truthyStr, he, h]
    · intro hc
      exact h hc.symm

/-- The string "--config" never occurs in the job segment when neither
rendered count is that string. -/
theorem config_not_mem_jobs_part (jobs : Option Int) (cpu_count : Option Nat)
    (hj : ∀ n, jobs = some n → toString n ≠ "--config")
    (hcpu : ∀ n, cpu_count = some n → toString n ≠ "--config") :
    "--config" ∉ jobs_part jobs cpu_count := by
  unfold jobs_part
  by_cases h1 : truthyInt jobs <;> cases cpu_count <;> simp [h1]
  · cases jobs with
    | none => simp [truthyInt] at h1
    | some n =>
      have := hj n rfl
      simp only [Option.getD_some]
      intro hc
      exact this hc.symm
  · cases jobs with
    | none => simp [truthyInt] at h1
    | some n =>
      have := hj n rfl
      simp only [Option.getD_some]
      intro hc
      exact this hc.symm
  · intro hc
    exact hcpu _ rfl hc.symm

/-- C1: for every platform in Windows, Linux, macOS, every configuration in
the closed enumeration, and every generator choice (ninja, make, xcode, vs,
or unset), the resolver returns exactly the section 4.1 table entry: on
Windows, "windows_ninja" for ninja and "windows_visual_studio" otherwise,
with the configuration never appended; on Linux, "linux_ninja_" or
"linux_make_" followed by the configuration; on macOS, "macos_ninja_" or
"macos_xcode_" followed by the configuration. -/
theorem preset_table_matches_spec (bd config : String) (generator : Option String)
    (hc : config ∈ (["debug", "release", "relwithdebinfo"] : List String))
    (hg : generator ∈ ([none, some "ninja", some "make", some "xcode", some "vs"] :
      List (Option String))) :
    get_preset_name ⟨"Windows", bd⟩ config generator =
      Except.ok (if generator = some "ninja" then "windows_ninja"
                 else "windows_visual_studio") ∧
    get_preset_name ⟨"Linux", bd⟩ config generator =
      Except.ok (if generator = some "ninja" then "linux_ninja_" ++ config
                 else "linux_make_" ++ config) ∧
    get_preset_name ⟨"Darwin", bd⟩ config generator =
      Except.ok (if generator = some "ninja" then "macos_ninja_" ++ config
                 else "macos_xcode_" ++ config) := by
  simp only [List.mem_cons, List.mem_singleton, List.not_mem_nil, or_false] at hc hg
  rcases hc with rfl | rfl | rfl <;>
    rcases hg with rfl | rfl | rfl | rfl | rfl <;>
    exact ⟨rfl, rfl, rfl⟩

/-- Witness for C1 at a concrete combination. -/
theorem preset_table_matches_spec_witness :
    get_preset_name ⟨"Windows", "b"⟩ "release" (some "ninja") =
      Except.ok (if (some "ninja" : Option String) = some "ninja" then "windows_ninja"
                 else "windows_visual_studio") ∧
    get_preset_name ⟨"Linux", "b"⟩ "release" (some "ninja") =
      Except.ok (if (some "ninja" : Option String) = some "ninja"
                 then "linux_ninja_" ++ "release" else "linux_make_" ++ "release") ∧
    get_preset_name ⟨"Darwin", "b"⟩ "release" (some "ninja") =
      Except.ok (if (some "ninja" : Option String) = some "ninja"
                 then "macos_ninja_" ++ "release" else "macos_xcode_" ++ "release") :=
  preset_table_matches_spec "b" "release" (some "ninja") (by simp) (by simp)

/-- C6: the resolver on a host platform that is none of Windows, Linux,
macOS always yields the unsupported-platform error and never a preset
name. -/
theorem unsupported_platform_resolve_fails (s bd config : String)
    (generator : Option String)
    (hw : s ≠ "Windows") (hl : s ≠ "Linux") (hm : s ≠ "Darwin") :
    get_preset_name ⟨s, bd⟩ config generator =
      Except.error ("Unsupported platform: " ++ s) := by
  simp [get_preset_name, BuildSystem.is_windows, BuildSystem.is_linux,
    BuildSystem.is_macos, hw, hl, hm]

/-- Witness for C6 on a concrete unsupported host string. -/
theorem unsupported_platform_resolve_fails_witness :
    get_preset_name ⟨"FreeBSD", "b"⟩ "debug" none =
      Except.error ("Unsupported platform: " ++ "FreeBSD") :=
  unsupported_platform_resolve_fails "FreeBSD" "b" "debug" none
    (by decide) (by decide) (by decide)

/-- C9: an explicit preset equal to the empty string behaves exactly as if
no explicit preset had been supplied, for both configure and build; the
empty string is never passed verbatim as a preset name. -/
theorem empty_preset_behaves_as_absent (b : BuildSystem) (config : String)
    (generator : Option String) (extra : Option (List String))
    (target : Option String) (jobs : Option Int) (cpu : Option Nat) :
    configure b config generator (some "") extra =
      configure b config generator none extra ∧
    build b config target jobs (some "") cpu =
      build b config target jobs none cpu :=
  ⟨rfl, rfl⟩

/-- C3: the install invocation is the tool, the install flag and the build
directory, with the mapped configuration appended on Windows only; the
mapping sends debug to Debug, release to Release, relwithdebinfo to
RelWithDebInfo, matches case-insensitively, and sends anything else to
Release; in particular install with mixed-case Debug on Windows yields the
expected vector. -/
theorem install_invocation_correct (s bd config : String) :
    install ⟨"Windows", bd⟩ config =
      ["cmake", "--install", bd, "--config", config_map_get config "Release"] ∧
    (s ≠ "Windows" → install ⟨s, bd⟩ config = ["cmake", "--install", bd]) ∧
    (pyLower config = "debug" → config_map_get config "Release" = "Debug") ∧
    (pyLower config = "release" → config_map_get config "Release" = "Release") ∧
    (pyLower config = "relwithdebinfo" →
      config_map_get config "Release" = "RelWithDebInfo") ∧
    (pyLower config ∉ (["debug", "release", "relwithdebinfo"] : List String) →
      config_map_get config "Release" = "Release") ∧
    install ⟨"Windows", bd⟩ "Debug" =
      ["cmake", "--install", bd, "--config", "Debug"] := by
  refine ⟨rfl, ?_, ?_, ?_, ?_, ?_, rfl⟩
  · intro hs
    simp [install, BuildSystem.is_windows, hs]
  · intro h; simp [config_map_get, h]
  · intro h; simp [config_map_get, h]
  · intro h; simp [config_map_get, h]
  · intro h
    simp only [List.mem_cons, List.not_mem_nil, or_false, not_or] at h
    simp [config_map_get, h.1, h.2.1, h.2.2]

/-- Witness for C3 on concrete inputs: a non-Windows host adds no
configuration flag, and the mapping is case-insensitive with default
Release. -/
theorem install_invocation_correct_witness :
    install ⟨"Linux", "b"⟩ "Debug" = ["cmake", "--install", "b"] ∧
    config_map_get "Debug" "Release" = "Debug" ∧
    config_map_get "custom" "Release" = "Release" :=
  ⟨(install_invocation_correct "Linux" "b" "Debug").2.1 (by decide),
   (install_invocation_correct "Linux" "b" "Debug").2.2.1 (by decide),
   (install_invocation_correct "Linux" "b" "custom").2.2.2.2.2.1 (by decide)⟩

/-- Counterexample to C7 as stated: on an initial state where the build
directory exists and recursive removal raises, the first of the two
successive clean calls does not succeed — it returns false and the
directory remains. -/
theorem clean_failure_counterexample :
    (clean true false).1 = false ∧ (clean true false).2 = true :=
  ⟨rfl, rfl⟩

/-- C7 (amended): clean on an absent build directory returns success and
leaves the filesystem unchanged (whatever the removal environment), and
two successive calls from there both succeed; from any initial state in
which recursive removal completes, both of two successive calls succeed,
the second operating on an absent directory.  When removal raises, clean
instead reports failure. -/
theorem clean_success_and_idempotent (fs ok : Bool) :
    clean false ok = (true, false) ∧
    (clean (clean false ok).2 ok).1 = true ∧
    (ok = true →
      (clean fs ok).1 = true ∧
      (clean fs ok).2 = false ∧
      (clean (clean fs ok).2 ok).1 = true) := by
  cases fs <;> cases ok <;> simp [clean]

/-- Witness for C7 (amended): from an existing directory with removal
completing, both successive calls succeed and the second sees an absent
directory. -/
theorem clean_success_and_idempotent_witness :
    (clean true true).1 = true ∧
    (clean true true).2 = false ∧
    (clean (clean true true).2 true).1 = true :=
  (clean_success_and_idempotent true true).2.2 rfl

/-- C5: the probe extracts the first line of standard output on success,
but the token extraction in the surrounding check is not best-effort: a
found cmake whose first line has fewer than three whitespace tokens makes
the check raise IndexError instead of completing. -/
theorem version_token_extraction_raises :
    check_command (some (0, "cmake\nsome more output")) = some "cmake" ∧
    check_requirements false true false (some "cmake") false none none =
      Except.error "IndexError" :=
  ⟨rfl, rfl⟩

/-- Counterexample to C4 as stated: on a simulated Windows host with the
cmake probe found (version line "cmake", fewer than three tokens) and the
optional probes not found, the check does not return true — it raises. -/
theorem check_requirements_counterexample :
    check_requirements true false false (some "cmake") false none none ≠
      Except.ok true :=
  fun h => Except.noConfusion h

/-- C4 (amended): the check returns false exactly when the cmake probe
result is falsy (probe failed, or the captured version string is empty);
and it returns true whenever the cmake probe is truthy with a version
line of at least three whitespace tokens and the optional probes are
falsy — the compiler indicator and the accelerator being missing never
makes it fail. -/
theorem check_requirements_required_only (is_w is_l is_m vsw : Bool)
    (cmake clang ccache : Option String) :
    (check_requirements is_w is_l is_m cmake vsw clang ccache = Except.ok false ↔
      truthyStr cmake = false) ∧
    (∀ v, cmake = some v → 3 ≤ (pySplitWs v).length →
      truthyStr clang = false → truthyStr ccache = false →
      check_requirements is_w is_l is_m cmake vsw clang ccache = Except.ok true) := by
  have hcc : ∀ cc : Option String, ccache_step cc ≠ Except.ok false := by
    intro cc
    unfold ccache_step
    by_cases h : truthyStr cc
    · rcases hi : (pySplitWs (cc.getD ""))[2]? with _ | tok <;> simp [h, hi]
    · simp [h]
  constructor
  · constructor
    · intro h
      by_cases hc : truthyStr cmake
      · exfalso
        simp only [check_requirements, hc, Bool.not_true, Bool.false_eq_true,
          if_false] at h
        rcases hv : (pySplitWs (cmake.getD ""))[2]? with _ | tok <;> rw [hv] at h
        · exact absurd h (by simp)
        · rcases hcs : compiler_probe_step is_w is_l is_m vsw clang with e | u <;>
            rw [hcs] at h
          · exact absurd h (by simp)
          · exact absurd h (hcc ccache)
      · simpa using hc
    · intro h
      simp [check_requirements, h]
  · intro v hv hlen hclang hccache
    subst hv
    have hne : v ≠ "" := by
      rintro rfl
      simp [pySplitWs, splitWsAux] at hlen
    have hc : truthyStr (some v) = true := by simp [truthyStr, hne]
    have h2 : (pySplitWs v)[2]? = some ((pySplitWs v).get ⟨2, by omega⟩) := by
      rw [List.getElem?_eq_getElem (by omega)]
      simp [List.get_eq_getElem]
    have hstep : compiler_probe_step is_w is_l is_m vsw clang = Except.ok () := by
      unfold compiler_probe_step
      by_cases hw : is_w <;> by_cases hlm : is_l || is_m <;>
        simp [hw, hlm, hclang]
    simp [check_requirements, hc, h2, hstep, ccache_step, hccache]

/-- Witness for C4 (amended) at a concrete well-formed version line. -/
theorem check_requirements_required_only_witness :
    check_requirements false true false (some "cmake version 3.28.1") false
      none none = Except.ok true :=
  (check_requirements_required_only false true false false
    (some "cmake version 3.28.1") none none).2 "cmake version 3.28.1" rfl
    (by decide) rfl rfl

/-- C2: build with an explicit preset never contains a config flag on any
platform; without one, on Windows the invocation always contains the pair
"--config" followed by the mapped configuration (mapping applied
case-insensitively on input, exact case on output), and on Linux and
macOS it never contains a config flag.  The flag-name hypotheses exclude
caller-supplied values that are literally the flag string. -/
theorem build_config_flag_correct (s bd config : String)
    (target preset : Option String) (jobs : Option Int) (cpu : Option Nat)
    (hbd : bd ≠ "--config")
    (ht : ∀ t, target = some t → t ≠ "--config")
    (hp : ∀ p, preset = some p → p ≠ "--config")
    (hj : ∀ n, jobs = some n → toString n ≠ "--config")
    (hcpu : ∀ n, cpu = some n → toString n ≠ "--config") :
    (truthyStr preset = true →
      "--config" ∉ build ⟨s, bd⟩ config target jobs preset cpu) ∧
    (truthyStr preset = false →
      (∃ l r, build ⟨"Windows", bd⟩ config target jobs preset cpu =
          l ++ ["--config", config_map_get config "Debug"] ++ r) ∧
      config_map_get config "Debug" ∈
        (["Debug", "Release", "RelWithDebInfo"] : List String) ∧
      (pyLower config = "debug" → config_map_get config "Debug" = "Debug") ∧
      (pyLower config = "release" → config_map_get config "Debug" = "Release") ∧
      (pyLower config = "relwithdebinfo" →
        config_map_get config "Debug" = "RelWithDebInfo") ∧
      "--config" ∉ build ⟨"Linux", bd⟩ config target jobs preset cpu ∧
      "--config" ∉ build ⟨"Darwin", bd⟩ config target jobs preset cpu) := by
  constructor
  · intro h
    rw [build_parts]
    intro hmem
    rcases List.mem_append.1 hmem with hm | hjp
    · rcases List.mem_append.1 hm with hbase | htp
      · cases preset with
        | none => simp [truthyStr] at h
        | some p =>
          simp only [build_base, h, if_true, Option.getD_some] at hbase
          simp only [List.mem_cons, List.not_mem_nil, or_false] at hbase
          rcases hbase with h1 | h1 | h1 | h1 <;> first
            | exact absurd h1 (by decide)
            | exact hp p rfl h1.symm
      · exact config_not_mem_target_part target ht htp
    · exact config_not_mem_jobs_part jobs cpu hj hcpu hjp
  · intro h
    refine ⟨?_, ?_, ?_, ?_, ?_, ?_, ?_⟩
    · refine ⟨["cmake", "--build", bd],
        target_part target ++ jobs_part jobs cpu, ?_⟩
      rw [build_parts]
      simp [build_base, h, BuildSystem.is_windows]
    · unfold config_map_get
      dsimp only
      split_ifs <;> simp
    · intro hh; simp [config_map_get, hh]
    · intro hh; simp [config_map_get, hh]
    · intro hh; simp [config_map_get, hh]
    · rw [build_parts]
      intro hmem
      rcases List.mem_append.1 hmem with hm | hjp
      · rcases List.mem_append.1 hm with hbase | htp
        · simp only [build_base, h, Bool.false_eq_true, if_false,
            BuildSystem.is_windows, beq_iff_eq] at hbase
          simp only [List.mem_cons, List.not_mem_nil, or_false,
            String.reduceEq, if_false] at hbase
          rcases hbase with h1 | h1 | h1 <;> first
            | exact absurd h1 (by decide)
            | exact hbd h1.symm
        · exact config_not_mem_target_part target ht htp
      · exact config_not_mem_jobs_part jobs cpu hj hcpu hjp
    · rw [build_parts]
      intro hmem
      rcases List.mem_append.1 hmem with hm | hjp
      · rcases List.mem_append.1 hm with hbase | htp
        · simp only [build_base, h, Bool.false_eq_true, if_false,
            BuildSystem.is_windows, beq_iff_eq] at hbase
          simp only [List.mem_cons, List.not_mem_nil, or_false,
            String.reduceEq, if_false] at hbase
          rcases hbase with h1 | h1 | h1 <;> first
            | exact absurd h1 (by decide)
            | exact hbd h1.symm
        · exact config_not_mem_target_part target ht htp
      · exact config_not_mem_jobs_part jobs cpu hj hcpu hjp

/-- Witness for C2: with an explicit preset the Linux build invocation has
no config flag, and without one the Windows invocation contains the mapped
configuration pair. -/
theorem build_config_flag_correct_witness :
    "--config" ∉ build ⟨"Linux", "b"⟩ "release" (some "t") (some 4)
      (some "p") (some 8) ∧
    ∃ l r, build ⟨"Windows", "b"⟩ "release" (some "t") (some 4) none
      (some 8) = l ++ ["--config", config_map_get "release" "Debug"] ++ r :=
  ⟨(build_config_flag_correct "Linux" "b" "release" (some "t") (some "p")
      (some 4) (some 8) (by decide)
      (by intro t h; cases h; decide) (by intro p h; cases h; decide)
      (by intro n h; cases h; decide) (by intro n h; cases h; decide)).1 rfl,
   ((build_config_flag_correct "Windows" "b" "release" (some "t") none
      (some 4) (some 8) (by decide)
      (by intro t h; cases h; decide) (by intro p h; cases h)
      (by intro n h; cases h; decide) (by intro n h; cases h; decide)).2
      rfl).1⟩

/-- C8: every invocation the command builder produces has the external
tool executable as its first element, and in the build invocation the
preset or explicit override arguments precede any target and job-count
arguments: the vector is the base segment (which carries the preset)
followed by the target segment followed by the job segment. -/
theorem invocation_structure (b : BuildSystem) (config : String)
    (generator preset target : Option String) (extra : Option (List String))
    (jobs : Option Int) (cpu : Option Nat) (cmd : List String) :
    (configure b config generator preset extra = Except.ok cmd →
      cmd.head? = some "cmake") ∧
    (build b config target jobs preset cpu).head? = some "cmake" ∧
    (install b config).head? = some "cmake" ∧
    (run_tests b).head? = some "ctest" ∧
    list_presets.head? = some "cmake" ∧
    build b config target jobs preset cpu =
      build_base b config preset ++ target_part target ++ jobs_part jobs cpu ∧
    (truthyStr preset = true →
      build_base b config preset =
        ["cmake", "--build", "--preset", preset.getD ""]) := by
  refine ⟨?_, ?_, ?_, rfl, rfl, build_parts b config target jobs preset cpu, ?_⟩
  · intro hc
    unfold configure at hc
    by_cases h : truthyStr preset
    · simp only [h, if_true, Except.ok.injEq] at hc
      subst hc; rfl
    · simp only [h, if_false, Bool.false_eq_true] at hc
      rcases hg : get_preset_name b config generator with e | n <;> rw [hg] at hc
      · exact absurd hc (by simp)
      · simp only [Except.ok.injEq] at hc
        subst hc; rfl
  · rw [build_parts]
    unfold build_base
    by_cases h1 : truthyStr preset <;> by_cases h2 : b.is_windows <;>
      simp [h1, h2]
  · unfold install
    by_cases h : b.is_windows <;> simp [h]
  · intro h
    simp [build_base, h]

/-- Witness for C8 at concrete inputs. -/
theorem invocation_structure_witness :
    (["cmake", "--preset", "p"] : List String).head? = some "cmake" ∧
    (build ⟨"Linux", "b"⟩ "debug" (some "t") (some 2) (some "p")
      (some 4)).head? = some "cmake" ∧
    build_base ⟨"Linux", "b"⟩ "debug" (some "p") =
      ["cmake", "--build", "--preset", (some "p" : Option String).getD ""] :=
  ⟨(invocation_structure ⟨"Linux", "b"⟩ "debug" none (some "p") (some "t")
      none (some 2) (some 4) ["cmake", "--preset", "p"]).1 rfl,
   (invocation_structure ⟨"Linux", "b"⟩ "debug" none (some "p") (some "t")
      none (some 2) (some 4) ["cmake", "--preset", "p"]).2.1,
   (invocation_structure ⟨"Linux", "b"⟩ "debug" none (some "p") (some "t")
      none (some 2) (some 4) ["cmake", "--preset", "p"]).2.2.2.2.2.2 rfl⟩

/-- C10: a job count of exactly zero is treated as absent: the build
invocation is identical to the one with no job count supplied, so the
auto-detected CPU count is substituted (or the flag omitted when
detection fails) and the pair "-j", "0" never arises from it. -/
theorem zero_jobs_behaves_as_absent (b : BuildSystem) (config : String)
    (target : Option String) (preset : Option String) (cpu : Option Nat) :
    build b config target (some 0) preset cpu =
      build b config target none preset cpu :=
  rfl

end ZBuild
